import Mathlib

/-!
Verification model of `tauri-plugin-oauth` (`src/lib.rs`), a minimal localhost
HTTP listener that captures an OAuth redirect.

Modelling conventions:
* Rust byte buffers and Rust `String`s that undergo lossy UTF-8 conversion are
  modelled as `List Nat` (one entry per byte, each `< 256` on real inputs).
* The fixed HTTP response, which is pure ASCII and never converted, is
  modelled as a Lean `String`.
* A panicking execution of the server thread (a failed `unwrap`, or the
  overflow-checked `usize` subtraction `content_length - content.len()`
  underflowing) is modelled by `Option`: `none` means the thread dies without
  answering the connection.
* A TCP connection is modelled by the bytes the first `conn.read` call
  returns (`initial`) plus the bytes still in flight that a later
  `read_exact` may consume (`pending`).
-/

set_option maxRecDepth 20000

namespace OauthPlugin

/-- ASCII string to byte list (all source literals involved are ASCII). -/
def strBytes (s : String) : List Nat :=
  s.data.map (fun ch => ch.toNat)

/-- The magic cancellation sequence `const EXIT: [u8; 4] = [1, 3, 3, 7]`
written by `cancel`. -/
def EXIT : List Nat := [1, 3, 3, 7]

/-- Size of the fixed read buffer `let mut buffer = [0; 4048]` in
`handle_connection`. -/
def bufferSize : Nat := 4048

/-! ## Lossy UTF-8 decoding

Model of Rust's `String::from_utf8_lossy`: valid UTF-8 sequences are copied
through, and each maximal subpart of an invalid sequence is replaced by the
replacement character U+FFFD, whose UTF-8 encoding is `EF BF BD`.
-/

/-- The UTF-8 encoding of U+FFFD, substituted for invalid input. -/
def replBytes : List Nat := [239, 191, 189]

/-- Is `b` a UTF-8 continuation byte (`10xxxxxx`)? -/
def isCont (b : Nat) : Bool := 128 ≤ b && b ≤ 191

/-- May `b` start a two-byte sequence? -/
def head2ok (b : Nat) : Bool := 194 ≤ b && b ≤ 223

/-- May `b :: c` start a three-byte sequence (excluding overlong encodings
and surrogates, as Rust does)? -/
def head3ok (b c : Nat) : Bool :=
  (b = 224 && (160 ≤ c && c ≤ 191)) ||
  (((225 ≤ b && b ≤ 236) || b = 238 || b = 239) && isCont c) ||
  (b = 237 && (128 ≤ c && c ≤ 159))

/-- May `b :: c` start a four-byte sequence (excluding overlong encodings
and code points above U+10FFFF)? -/
def head4ok (b c : Nat) : Bool :=
  (b = 240 && (144 ≤ c && c ≤ 191)) ||
  ((241 ≤ b && b ≤ 243) && isCont c) ||
  (b = 244 && (128 ≤ c && c ≤ 143))

/-- Length of the valid UTF-8 sequence at the head of the input, or 0 when
the head is not a complete valid sequence. -/
def seqLen : List Nat → Nat
  | [] => 0
  | b :: rest =>
    if b < 128 then 1
    else
      match rest with
      | [] => 0
      | c :: rest2 =>
        if head2ok b && isCont c then 2
        else
          match rest2 with
          | [] => 0
          | d :: rest3 =>
            if head3ok b c && isCont d then 3
            else
              match rest3 with
              | [] => 0
              | e :: _ =>
                if head4ok b c && isCont d && isCont e then 4 else 0

/-- Length of the maximal subpart of a valid sequence at the head of an
invalid input: the bytes one replacement character stands for (Rust's
"substitution of maximal subparts" policy).  Always at least 1. -/
def subLen : List Nat → Nat
  | [] => 1
  | b :: rest =>
    if b < 128 then 1
    else if head2ok b then 1
    else if b = 224 || (225 ≤ b && b ≤ 239) then
      match rest with
      | [] => 1
      | c :: _ => if head3ok b c then 2 else 1
    else if 240 ≤ b && b ≤ 244 then
      match rest with
      | [] => 1
      | c :: rest2 =>
        if head4ok b c then
          match rest2 with
          | [] => 2
          | d :: _ => if isCont d then 3 else 2
        else 1
    else 1

/-- One step of lossy UTF-8 decoding: returns the emitted bytes, the
remaining input, and whether the consumed bytes were valid UTF-8.  Returns
`none` exactly on empty input.  Invalid input consumes the maximal subpart
of a valid sequence (at least one byte) and emits the replacement
character. -/
def utf8Step : List Nat → Option (List Nat × List Nat × Bool)
  | [] => none
  | b :: rest =>
    if 0 < seqLen (b :: rest) then
      some ((b :: rest).take (seqLen (b :: rest)), (b :: rest).drop (seqLen (b :: rest)), true)
    else
      some (replBytes, (b :: rest).drop (subLen (b :: rest)), false)

/-- Fuelled driver for lossy decoding; every step consumes at least one
input byte, so fuel equal to the input length suffices. -/
def utf8LossyGo : Nat → List Nat → List Nat
  | 0, _ => []
  | fuel + 1, l =>
    match utf8Step l with
    | none => []
    | some (em, rest, _) => em ++ utf8LossyGo fuel rest

/-- Model of `String::from_utf8_lossy(..).to_string()`, as a byte list. -/
def utf8Lossy (l : List Nat) : List Nat := utf8LossyGo l.length l

/-- Fuelled validity check: `true` iff every decoding step is valid. -/
def validUtf8Go : Nat → List Nat → Bool
  | 0, l => l.isEmpty
  | fuel + 1, l =>
    match utf8Step l with
    | none => true
    | some (_, rest, ok) => ok && validUtf8Go fuel rest

/-- A byte list is valid UTF-8 iff lossy decoding never substitutes. -/
def validUtf8 (l : List Nat) : Bool := validUtf8Go l.length l

/-! ## Request parsing

Modelled from the spec: the `httparse` dependency (not part of this
repository) is described in the spec as parsing "the leading HTTP start-line
and header block from the buffer, tolerantly: if the bytes do not form a
well-formed request line/headers, parsing degrades to no path, no headers".
We model it as a total function returning `none` on malformed input, the
callers in `handle_connection` then defaulting path and headers to empty.
At most 100 headers are accepted, mirroring the
`[httparse::EMPTY_HEADER; 100]` array.
-/

/-- Is `b` an HTTP token byte (RFC 7230), accepted in methods and header
names? -/
def isTokenByte (b : Nat) : Bool :=
  (48 ≤ b && b ≤ 57) || (65 ≤ b && b ≤ 90) || (97 ≤ b && b ≤ 122) ||
  b = 33 || (35 ≤ b && b ≤ 39) || b = 42 || b = 43 || b = 45 || b = 46 ||
  b = 94 || b = 95 || b = 96 || b = 124 || b = 126

/-- Is `b` acceptable in a request-target (printable, no whitespace)? -/
def isUriByte (b : Nat) : Bool := 33 ≤ b && b ≤ 126

/-- Is `b` acceptable inside a header value (printable, space, tab, or
high byte)? -/
def isValueByte (b : Nat) : Bool := b = 9 || (32 ≤ b && b ≤ 126) || 128 ≤ b

/-- Split a byte list at the first CRLF, returning the line and the rest. -/
def splitAtCRLF : List Nat → Option (List Nat × List Nat)
  | [] => none
  | b :: rest =>
    if b = 13 ∧ rest.take 1 = [10] then some ([], rest.drop 1)
    else (splitAtCRLF rest).map (fun p => (b :: p.1, p.2))

/-- Split a byte list at the first occurrence of byte `t`. -/
def splitAtByte (t : Nat) : List Nat → Option (List Nat × List Nat)
  | [] => none
  | b :: rest =>
    if b = t then some ([], rest)
    else (splitAtByte t rest).map (fun p => (b :: p.1, p.2))

/-- Does the byte list spell an HTTP/1.x version tag? -/
def isVersion (v : List Nat) : Bool :=
  match v with
  | [72, 84, 84, 80, 47, 49, 46, d] => 48 ≤ d && d ≤ 57
  | _ => false

/-- Parse a request line `METHOD SP PATH SP VERSION`, returning the path. -/
def parseRequestLine (line : List Nat) : Option (List Nat) :=
  match splitAtByte 32 line with
  | none => none
  | some (m, rest1) =>
    if m.isEmpty || !m.all isTokenByte then none
    else
      match splitAtByte 32 rest1 with
      | none => none
      | some (p, ver) =>
        if !p.isEmpty && p.all isUriByte && isVersion ver then some p else none

/-- Drop leading spaces and horizontal tabs. -/
def dropWS (l : List Nat) : List Nat := l.dropWhile (fun b => b = 32 || b = 9)

/-- Trim leading and trailing spaces and horizontal tabs, as `httparse`
does for header values. -/
def trimWS (l : List Nat) : List Nat := (dropWS (dropWS l.reverse).reverse)

/-- Parse the header block: one `Name: value` line per header, terminated
by a blank line; `fuel` bounds the header count at 100. -/
def parseHeaderBlock : Nat → List Nat → Option (List (List Nat × List Nat))
  | fuel, input =>
    match splitAtCRLF input with
    | none => none
    | some ([], _) => some []
    | some (line, rest) =>
      match fuel with
      | 0 => none
      | fuel + 1 =>
        match splitAtByte 58 line with
        | none => none
        | some (name, val) =>
          if !name.isEmpty && name.all isTokenByte && val.all isValueByte then
            (parseHeaderBlock fuel rest).map (fun hs => (name, trimWS val) :: hs)
          else none

/-- Modelled from the spec: tolerant request parsing, yielding the path and
the header list, or `none` when the bytes are malformed. -/
def parseRequest (buf : List Nat) : Option (List Nat × List (List Nat × List Nat)) :=
  match splitAtCRLF buf with
  | none => none
  | some (line, rest) =>
    match parseRequestLine line with
    | none => none
    | some p => (parseHeaderBlock 100 rest).map (fun hs => (p, hs))

/-! ## Content-Length extraction

Mirrors the loop in `handle_connection`: `content_length` starts at 0 and
each header literally named `Content-Length` overwrites it with
`parse().unwrap()` of its value; an unparseable value panics (`none`). -/

/-- The header name the source compares against, as bytes. -/
def clName : List Nat := strBytes "Content-Length"

/-- Model of `str::parse::<usize>`: optional leading plus sign, then one or
more ASCII digits. -/
def parseUsize (v : List Nat) : Option Nat :=
  let digits := match v with
    | 43 :: rest => rest
    | _ => v
  if !digits.isEmpty && digits.all (fun b => 48 ≤ b && b ≤ 57) then
    some (digits.foldl (fun a b => a * 10 + (b - 48)) 0)
  else none

/-- Fold over the parsed headers computing the final `content_length`;
`none` models the `unwrap` panic on an unparseable value. -/
def computeCL (hs : List (List Nat × List Nat)) : Option Nat :=
  hs.foldl
    (fun acc h =>
      match acc with
      | none => none
      | some cur => if h.1 = clName then parseUsize h.2 else some cur)
    (some 0)

/-! ## Body splitting

Mirrors `request_string.splitn(2, "\r\n\r\n")` followed by
`parts.get(1).unwrap_or(&"")`: everything after the first blank line, or
empty when there is none. -/

/-- The header/body separator `\r\n\r\n` as bytes. -/
def blankPat : List Nat := [13, 10, 13, 10]

/-- Split at the first occurrence of the blank-line separator. -/
def splitOnBlank : List Nat → Option (List Nat × List Nat)
  | [] => none
  | b :: rest =>
    if (b :: rest).take 4 = blankPat then some ([], rest.drop 3)
    else (splitOnBlank rest).map (fun p => (b :: p.1, p.2))

/-- The body part after the first blank line (empty if none). -/
def bodyContentOf (s : List Nat) : List Nat :=
  match splitOnBlank s with
  | some p => p.2
  | none => []

/-! ## The connection handler -/

/-- A TCP connection, seen from the server: the bytes the first `read`
returns and the bytes a later `read_exact` may still consume. -/
structure Conn where
  initial : List Nat
  pending : List Nat
deriving DecidableEq, Repr

/-- The 4048-byte read buffer: the bytes read, zero-padded. -/
def bufferOf (c : Conn) : List Nat :=
  c.initial.take bufferSize ++ List.replicate (bufferSize - c.initial.length) 0

/-- The value `read_byte` returned by the first read. -/
def readByteOf (c : Conn) : Nat := min c.initial.length bufferSize

/-- The parse result of the full (padded) buffer. -/
def parsedOf (c : Conn) : Option (List Nat × List (List Nat × List Nat)) :=
  parseRequest (bufferOf c)

/-- The request path, defaulting to the empty string on parse degradation,
mirroring `request.path.map(..).unwrap_or("".to_string())`. -/
def pathOf (c : Conn) : List Nat :=
  match parsedOf c with
  | some pr => pr.1
  | none => []

/-- The parsed headers, empty on parse degradation. -/
def headersOf (c : Conn) : List (List Nat × List Nat) :=
  match parsedOf c with
  | some pr => pr.2
  | none => []

/-- The computed `content_length` for a connection (`none` models the
panic on an unparseable `Content-Length` value). -/
def clOf (c : Conn) : Option Nat := computeCL (headersOf c)

/-- The fixed response body `let response = "true".to_string()`. -/
def responseBody : String := "true"

/-- The literal response written by `conn.write_all(format!(..))`, with
`{}` holes filled by `response.len()` and `response`. -/
def fixedResponse : String :=
  "HTTP/1.1 200 OK\r\nContent-Length: " ++ toString responseBody.length ++
  "\r\nAccess-Control-Allow-Headers: *\r\nAccess-Control-Allow-Methods: POST, GET, OPTIONS\r\nAccess-Control-Allow-Credentials: true\r\nAccess-Control-Allow-Origin: *\r\nContent-Type: application/json; charset=utf-8\r\ncache-control: max-age=0, private, must-revalidate\r\n\r\n" ++
  responseBody

/-- Observable outcome of `handle_connection` on one connection: the Rust
return value (`some []` encodes `Some(String::new())`, the shutdown
signal), the response written to the socket if any, and the size of the
second (`read_exact`) read if one was performed. -/
structure HOutcome where
  result : Option (List Nat)
  response : Option String
  extraReadLen : Option Nat
deriving DecidableEq, Repr

/-- Model of `handle_connection`; `none` models a panic of the server
thread (unparseable `Content-Length`, underflow of the overflow-checked
subtraction `content_length - content.len()`, or `read_exact` hitting end
of stream), in which case no response is written. -/
def handleConnection (c : Conn) : Option HOutcome :=
  if pathOf c = strBytes "/exit" then some ⟨some [], none, none⟩
  else
    match clOf c with
    | none => none
    | some cl =>
      if 0 < cl ∧ pathOf c = strBytes "/submit" then
        let content := bodyContentOf (utf8Lossy ((bufferOf c).take (readByteOf c)))
        if cl < content.length then none
        else if 0 < cl - content.length then
          if c.pending.length < cl - content.length then none
          else
            let content2 := content ++ utf8Lossy (c.pending.take (cl - content.length))
            some ⟨if content2.isEmpty then none else some content2,
                  some fixedResponse, some (cl - content.length)⟩
        else
          some ⟨if content.isEmpty then none else some content,
                some fixedResponse, none⟩
      else some ⟨none, some fixedResponse, none⟩

/-! ## The accept loop -/

/-- How a run of the accept loop ended: it exhausted the modelled incoming
connections, it hit the `break` (shutdown request), or the thread died in a
panic inside `handle_connection`. -/
inductive LoopExit where
  | finished
  | stopped
  | crashed
deriving DecidableEq, Repr

/-- Model of the `thread::spawn` loop body in `start_with_config`: processes
incoming connections in order, collecting the contents passed to `handler`;
returns the handler invocations, how the loop ended, and the connections it
never accepted. -/
def runLoop : List Conn → List (List Nat) × LoopExit × List Conn
  | [] => ([], LoopExit.finished, [])
  | c :: rest =>
    match handleConnection c with
    | none => ([], LoopExit.crashed, rest)
    | some o =>
      match o.result with
      | some content =>
        if content.isEmpty then ([], LoopExit.stopped, rest)
        else
          let r := runLoop rest
          (content :: r.1, r.2.1, r.2.2)
      | none => runLoop rest

/-! ## Port binding

Modelled from the spec and the standard library's documented behaviour of
`TcpListener::bind` on a slice of addresses (the binding logic itself lives
in `std`, not in this repository): each candidate address is tried in
order and the first successful bind wins; if none binds, the call fails.
`free` abstracts which loopback ports the OS would let us bind. -/

/-- First bindable port among the candidates, in order. -/
def bindFirst (free : Nat → Bool) : List Nat → Option Nat
  | [] => none
  | p :: ps => if free p then some p else bindFirst free ps

/-- Port selection of `start_with_config`: a `Some(ports)` config tries the
candidates in order; a `None` config asks the OS for an ephemeral port
(`osAssign`, `none` when the OS refuses).  The result is the port the
function returns; `none` means the bind failed, the `?` operator propagates
the error, and no accept loop is started. -/
def startPort (free : Nat → Bool) (osAssign : Option Nat) :
    Option (List Nat) → Option Nat
  | some ports => bindFirst free ports
  | none => osAssign

/-! ## Helper lemmas -/

/-- A successful valid decoding step consumed exactly the bytes it emitted,
and at least one of them. -/
theorem utf8Step_ok (l em rest : List Nat)
    (h : utf8Step l = some (em, rest, true)) : l = em ++ rest ∧ em ≠ [] := by
  cases l with
  | nil => simp [utf8Step] at h
  | cons b t =>
    simp only [utf8Step] at h
    split at h
    · rename_i hn
      simp only [Option.some.injEq, Prod.mk.injEq] at h
      obtain ⟨hem, hrest, -⟩ := h
      refine ⟨?_, ?_⟩
      · rw [← hem, ← hrest]
        exact (List.take_append_drop _ _).symm
      · rw [← hem]
        cases hsn : seqLen (b :: t) with
        | zero => rw [hsn] at hn; omega
        | succ k => simp
    · simp at h

/-- The decoder stalls only on empty input. -/
theorem utf8Step_none (l : List Nat) (h : utf8Step l = none) : l = [] := by
  cases l with
  | nil => rfl
  | cons b t =>
    simp only [utf8Step] at h
    split at h <;> simp at h

/-- Lossy decoding is the identity on valid input, fuelled version. -/
theorem utf8LossyGo_id (fuel : Nat) : ∀ l : List Nat, l.length ≤ fuel →
    validUtf8Go fuel l = true → utf8LossyGo fuel l = l := by
  induction fuel with
  | zero =>
    intro l hl _
    have : l = [] := List.eq_nil_of_length_eq_zero (Nat.le_zero.mp hl)
    simp [this, utf8LossyGo]
  | succ f ih =>
    intro l hl hv
    rw [utf8LossyGo]
    rw [validUtf8Go] at hv
    cases hstep : utf8Step l with
    | none => simp [utf8Step_none l hstep]
    | some trip =>
      obtain ⟨em, rest, ok⟩ := trip
      rw [hstep] at hv
      simp only at hv
      obtain ⟨hok1, hok2⟩ : ok = true ∧ validUtf8Go f rest = true := by
        cases ok <;> simp_all
      subst hok1
      obtain ⟨hdec, hne⟩ := utf8Step_ok l em rest hstep
      have hrest : rest.length ≤ f := by
        have : em.length + rest.length = l.length := by
          rw [hdec, List.length_append]
        have hem : 1 ≤ em.length := by
          cases em with
          | nil => exact absurd rfl hne
          | cons _ _ => simp
        omega
      simp only [ih rest hrest hok2]
      exact hdec.symm

/-- Lossy decoding is the identity on valid UTF-8 input. -/
theorem utf8Lossy_id (l : List Nat) (h : validUtf8 l = true) :
    utf8Lossy l = l :=
  utf8LossyGo_id l.length l (Nat.le_refl _) h

/-- When the first read fits the buffer, the slice `&buffer[..read_byte]`
is exactly the bytes read. -/
theorem buffer_take_initial (c : Conn) (h : c.initial.length ≤ bufferSize) :
    (bufferOf c).take (readByteOf c) = c.initial := by
  unfold bufferOf readByteOf
  rw [Nat.min_eq_left h, List.take_of_length_le h]
  have : c.initial.length ≤ c.initial.length := Nat.le_refl _
  rw [List.take_append_of_le_length this, List.take_of_length_le (Nat.le_refl _)]

/-- Headers without a `Content-Length` entry leave the accumulator of the
extraction fold untouched. -/
theorem computeCL_aux (hs : List (List Nat × List Nat)) :
    ∀ cur : Nat, (∀ p ∈ hs, p.1 ≠ clName) →
    hs.foldl
      (fun acc h =>
        match acc with
        | none => none
        | some cur => if h.1 = clName then parseUsize h.2 else some cur)
      (some cur) = some cur := by
  induction hs with
  | nil => intro cur _; rfl
  | cons p ps ih =>
    intro cur hno
    have hp : p.1 ≠ clName := hno p (List.mem_cons_self p ps)
    simp only [List.foldl_cons, if_neg hp]
    exact ih cur (fun q hq => hno q (List.mem_cons_of_mem p hq))

/-- A request with no `Content-Length` header computes `content_length = 0`,
identically to an explicit `Content-Length: 0`. -/
theorem computeCL_absent (hs : List (List Nat × List Nat))
    (h : ∀ p ∈ hs, p.1 ≠ clName) : computeCL hs = some 0 :=
  computeCL_aux hs 0 h

/-- A byte list that never contains the byte 10 has no CRLF line ending. -/
theorem splitAtCRLF_none (l : List Nat) (h : ∀ b ∈ l, b ≠ 10) :
    splitAtCRLF l = none := by
  induction l with
  | nil => rfl
  | cons b t ih =>
    simp only [splitAtCRLF]
    have hc : ¬(b = 13 ∧ t.take 1 = [10]) := by
      rintro ⟨-, htake⟩
      cases t with
      | nil => simp at htake
      | cons c t2 =>
        simp only [List.take, List.cons.injEq] at htake
        exact h c (by simp) htake.1
    rw [if_neg hc, ih (fun x hx => h x (List.mem_cons_of_mem b hx))]
    rfl

/-- If the raw bytes read contain no byte 10, neither does the padded
buffer. -/
theorem bufferOf_no10 (c : Conn) (h : ∀ b ∈ c.initial, b ≠ 10) :
    ∀ b ∈ bufferOf c, b ≠ 10 := by
  intro b hb
  unfold bufferOf at hb
  rcases List.mem_append.mp hb with h1 | h2
  · exact h b (List.take_subset _ _ h1)
  · have := List.eq_of_mem_replicate h2
    omega

/-- A connection whose bytes contain no line ending at all fails to parse. -/
theorem parsedOf_none_of_no10 (c : Conn) (h : ∀ b ∈ c.initial, b ≠ 10) :
    parsedOf c = none := by
  unfold parsedOf parseRequest
  rw [splitAtCRLF_none _ (bufferOf_no10 c h)]

/-- Parse degradation: a malformed request yields the empty path and no
headers, hence `content_length = 0`, and is answered with the fixed
response. -/
theorem parse_degraded (c : Conn) (h : parsedOf c = none) :
    pathOf c = [] ∧ headersOf c = [] ∧ clOf c = some 0 ∧
    handleConnection c = some ⟨none, some fixedResponse, none⟩ := by
  have hpath : pathOf c = [] := by unfold pathOf; rw [h]
  have hhd : headersOf c = [] := by unfold headersOf; rw [h]
  have hcl : clOf c = some 0 := by unfold clOf; rw [hhd]; rfl
  refine ⟨hpath, hhd, hcl, ?_⟩
  unfold handleConnection
  rw [if_neg (by rw [hpath]; decide)]
  rw [hcl]
  simp

/-! ## Claims -/

/-- C5: for every connection whose parsed path equals the sentinel exit
path `/exit`, `handle_connection` returns the shutdown signal without
extracting a body, performing an extra read, or writing a response, the
caller's handler is not invoked for that connection, and the accept loop
stops: the remaining incoming connections are never accepted. -/
theorem claim_C5_exit_stops_loop (c : Conn) (rest : List Conn)
    (h : pathOf c = strBytes "/exit") :
    handleConnection c = some ⟨some [], none, none⟩ ∧
    runLoop (c :: rest) = ([], LoopExit.stopped, rest) := by
  have hh : handleConnection c = some ⟨some [], none, none⟩ := by
    unfold handleConnection
    rw [if_pos h]
  refine ⟨hh, ?_⟩
  simp only [runLoop, hh]
  rfl

/-- Witness for C5 at a concrete `GET /exit` request followed by another
pending connection, which the stopped loop never accepts. -/
theorem claim_C5_witness :
    pathOf ⟨strBytes "GET /exit HTTP/1.1\r\n\r\n", []⟩ = strBytes "/exit" ∧
    runLoop [⟨strBytes "GET /exit HTTP/1.1\r\n\r\n", []⟩, ⟨[], []⟩] =
      ([], LoopExit.stopped, [⟨[], []⟩]) := by
  have h : pathOf ⟨strBytes "GET /exit HTTP/1.1\r\n\r\n", []⟩ = strBytes "/exit" := by
    decide
  exact ⟨h, (claim_C5_exit_stops_loop _ _ h).2⟩

/-- C7: a connection whose bytes do not parse as a well-formed request is
not an error: it degrades to the empty path and no headers, and is still
answered with the fixed 200 response. -/
theorem claim_C7_malformed_degrades (c : Conn) (h : parsedOf c = none) :
    pathOf c = [] ∧ headersOf c = [] ∧
    handleConnection c = some ⟨none, some fixedResponse, none⟩ := by
  obtain ⟨h1, h2, -, h4⟩ := parse_degraded c h
  exact ⟨h1, h2, h4⟩

/-- Witness for C7 at a concrete garbage connection consisting of the
single byte 255. -/
theorem claim_C7_witness :
    parsedOf ⟨[255], []⟩ = none ∧ pathOf ⟨[255], []⟩ = [] ∧
    headersOf ⟨[255], []⟩ = [] ∧
    handleConnection ⟨[255], []⟩ = some ⟨none, some fixedResponse, none⟩ := by
  have h : parsedOf ⟨[255], []⟩ = none :=
    parsedOf_none_of_no10 _ (by decide)
  obtain ⟨h1, h2, h3⟩ := claim_C7_malformed_degrades _ h
  exact ⟨h, h1, h2, h3⟩

/-- C8 (amended): the initial read buffer of `handle_connection` is a
fixed-size buffer of exactly 4048 bytes (not 4096), so the first read
consumes at most 4048 bytes of the request. -/
theorem claim_C8_buffer_size :
    bufferSize = 4048 ∧
    ∀ c : Conn, (bufferOf c).length = bufferSize ∧ readByteOf c ≤ bufferSize := by
  refine ⟨rfl, fun c => ⟨?_, ?_⟩⟩
  · unfold bufferOf
    simp only [List.length_append, List.length_take, List.length_replicate]
    omega
  · exact Nat.min_le_right _ _

/-- Counterexample for C8 as stated: the buffer size in the source is the
literal 4048, not 4096. -/
theorem claim_C8_counterexample : ¬ bufferSize = 4096 := by decide

/-- C10: at a `/submit` request whose declared `Content-Length` (here 1) is
smaller than the body bytes already present after the blank line in the
initial read (here `ab`), the unsigned subtraction
`content_length - content.len()` underflows and `handle_connection`
panics: no response is written and the server thread dies, crashing the
accept loop. -/
theorem claim_C10_underflow_panics :
    handleConnection ⟨strBytes "POST /submit HTTP/1.1\r\nContent-Length: 1\r\n\r\nab", []⟩ = none ∧
    runLoop [⟨strBytes "POST /submit HTTP/1.1\r\nContent-Length: 1\r\n\r\nab", []⟩] =
      ([], LoopExit.crashed, []) := by
  have h : handleConnection
      ⟨strBytes "POST /submit HTTP/1.1\r\nContent-Length: 1\r\n\r\nab", []⟩ = none := by
    decide
  exact ⟨h, by simp only [runLoop, h]⟩

/-- C1: evaluation of the code at the bytes `cancel` writes.  The magic
sequence `EXIT = [1,3,3,7]` fails to parse, degrades to the empty path,
does not match `/exit`, so `handle_connection` returns `None` and the
accept loop keeps running: a later connection is still accepted and its
captured content still reaches the handler.  The cancellation channel
therefore does not stop the accept loop, contradicting `cancel`'s own
documentation ("Stops the currently running server behind the provided
port"). -/
theorem claim_C1_cancel_does_not_stop_loop :
    handleConnection ⟨EXIT, []⟩ = some ⟨none, some fixedResponse, none⟩ ∧
    runLoop [⟨EXIT, []⟩,
             ⟨strBytes "POST /submit HTTP/1.1\r\nContent-Length: 5\r\n\r\nhello", []⟩] =
      ([strBytes "hello"], LoopExit.finished, []) := by
  have hno : ∀ b ∈ (⟨EXIT, []⟩ : Conn).initial, b ≠ 10 := by decide
  have hd := parse_degraded _ (parsedOf_none_of_no10 _ hno)
  have hsub : handleConnection
      ⟨strBytes "POST /submit HTTP/1.1\r\nContent-Length: 5\r\n\r\nhello", []⟩ =
      some ⟨some (strBytes "hello"), some fixedResponse, none⟩ := by decide
  refine ⟨hd.2.2.2, ?_⟩
  simp only [runLoop, hd.2.2.2, hsub]
  decide

/-- A successful bind returns the first candidate the OS lets us bind. -/
theorem bindFirst_some (free : Nat → Bool) (ps : List Nat) (q : Nat)
    (h : bindFirst free ps = some q) :
    free q = true ∧ ∃ l₁ l₂, ps = l₁ ++ q :: l₂ ∧ ∀ p ∈ l₁, free p = false := by
  induction ps with
  | nil => simp [bindFirst] at h
  | cons p ps ih =>
    rw [bindFirst] at h
    by_cases hf : free p = true
    · rw [if_pos hf] at h
      obtain rfl : p = q := by injection h
      exact ⟨hf, [], ps, rfl, by simp⟩
    · have hf' : free p = false := by revert hf; cases free p <;> simp
      rw [if_neg (by simp [hf'])] at h
      obtain ⟨hq, l₁, l₂, hps, hl₁⟩ := ih h
      refine ⟨hq, p :: l₁, l₂, by simp [hps], ?_⟩
      intro x hx
      rcases List.mem_cons.mp hx with rfl | hx'
      · exact hf'
      · exact hl₁ x hx'

/-- Binding fails exactly when no candidate is bindable. -/
theorem bindFirst_none (free : Nat → Bool) (ps : List Nat) :
    bindFirst free ps = none ↔ ∀ p ∈ ps, free p = false := by
  induction ps with
  | nil => simp [bindFirst]
  | cons p ps ih =>
    rw [bindFirst]
    by_cases hf : free p = true
    · simp [hf]
    · have hf' : free p = false := by revert hf; cases free p <;> simp
      simp [hf', ih]

/-- C4: with a `ports` list, `start_with_config` binds the loopback
candidates in order and returns the first bindable one, ignoring bind
failures on earlier candidates; if no candidate binds (in particular for
an empty list) it returns `none`, the bind error propagates, and no
listener runs; with no `ports` list it binds an OS-assigned ephemeral
port and returns it. -/
theorem claim_C4_port_binding (free : Nat → Bool) (osAssign : Option Nat)
    (ps : List Nat) :
    (∀ q, startPort free osAssign (some ps) = some q →
      free q = true ∧ ∃ l₁ l₂, ps = l₁ ++ q :: l₂ ∧ ∀ p ∈ l₁, free p = false) ∧
    (startPort free osAssign (some ps) = none ↔ ∀ p ∈ ps, free p = false) ∧
    startPort free osAssign none = osAssign := by
  refine ⟨fun q h => bindFirst_some free ps q h, ?_, rfl⟩
  exact bindFirst_none free ps

/-- Witness for C4: with only port 8081 bindable, the candidate list
`[8080, 8081]` skips the failing 8080 and binds 8081; with nothing
bindable the bind fails; with no list the OS-assigned port is returned. -/
theorem claim_C4_witness :
    ((fun p => p == 8081) 8081 = true ∧
      ∃ l₁ l₂, [8080, 8081] = l₁ ++ 8081 :: l₂ ∧
        ∀ p ∈ l₁, (fun p => p == 8081) p = false) ∧
    startPort (fun _ => false) none (some [8080]) = none ∧
    startPort (fun p => p == 8081) (some 4242) none = some 4242 := by
  refine ⟨(claim_C4_port_binding (fun p => p == 8081) none [8080, 8081]).1 8081 (by decide),
          ?_, (claim_C4_port_binding (fun p => p == 8081) (some 4242) []).2.2⟩
  exact (claim_C4_port_binding (fun _ => false) none [8080]).2.1.mpr (by decide)

/-- The guard `if content.is_empty() == false` never forwards an empty
captured body. -/
theorem ite_isEmpty_ne (l : List Nat) :
    (if l.isEmpty = true then (none : Option (List Nat)) else some l) ≠ some [] := by
  split
  · simp
  · rename_i hne
    intro h
    injection h with h2
    rw [h2] at hne
    simp at hne

/-- C9: a `/submit` request with `content_length = 0` — which is what both
an absent `Content-Length` header and an explicit `Content-Length: 0`
compute, identically — yields no captured content and the handler is not
invoked; moreover no connection off the exit path ever forwards an empty
captured body. -/
theorem claim_C9_empty_capture (c : Conn) :
    (pathOf c = strBytes "/submit" → clOf c = some 0 →
      handleConnection c = some ⟨none, some fixedResponse, none⟩) ∧
    ((∀ p ∈ headersOf c, p.1 ≠ clName) → clOf c = some 0) ∧
    (pathOf c ≠ strBytes "/exit" → ∀ o, handleConnection c = some o →
      o.result ≠ some []) := by
  refine ⟨?_, fun h => computeCL_absent _ h, ?_⟩
  · intro hp hcl
    unfold handleConnection
    rw [if_neg (by rw [hp]; decide), hcl]
    simp
  · intro hne o ho hres
    unfold handleConnection at ho
    rw [if_neg hne] at ho
    cases hcl : clOf c with
    | none => rw [hcl] at ho; exact absurd ho (by simp)
    | some cl =>
      rw [hcl] at ho
      simp only [] at ho
      split at ho
      · split at ho
        · exact absurd ho (by simp)
        · split at ho
          · split at ho
            · exact absurd ho (by simp)
            · injection ho with ho2
              rw [← ho2] at hres
              dsimp only at hres
              exact ite_isEmpty_ne _ hres
          · injection ho with ho2
            rw [← ho2] at hres
            dsimp only at hres
            exact ite_isEmpty_ne _ hres
      · injection ho with ho2
        rw [← ho2] at hres
        dsimp only at hres
        exact absurd hres (by simp)

/-- Witness for C9 at a concrete `GET /submit` request with no
`Content-Length` header. -/
theorem claim_C9_witness :
    pathOf ⟨strBytes "GET /submit HTTP/1.1\r\nHost: x\r\n\r\n", []⟩ = strBytes "/submit" ∧
    clOf ⟨strBytes "GET /submit HTTP/1.1\r\nHost: x\r\n\r\n", []⟩ = some 0 ∧
    handleConnection ⟨strBytes "GET /submit HTTP/1.1\r\nHost: x\r\n\r\n", []⟩ =
      some ⟨none, some fixedResponse, none⟩ := by
  have h1 : pathOf ⟨strBytes "GET /submit HTTP/1.1\r\nHost: x\r\n\r\n", []⟩ =
      strBytes "/submit" := by decide
  have h2 : clOf ⟨strBytes "GET /submit HTTP/1.1\r\nHost: x\r\n\r\n", []⟩ = some 0 := by
    decide
  exact ⟨h1, h2, (claim_C9_empty_capture _).1 h1 h2⟩

/-- Every branch of `handle_connection` that completes on a non-exit path
writes the single fixed response. -/
theorem handleConnection_response (c : Conn) (o : HOutcome)
    (hne : pathOf c ≠ strBytes "/exit") (h : handleConnection c = some o) :
    o.response = some fixedResponse := by
  unfold handleConnection at h
  rw [if_neg hne] at h
  cases hcl : clOf c with
  | none => rw [hcl] at h; exact absurd h (by simp)
  | some cl =>
    rw [hcl] at h
    simp only [] at h
    split at h
    · split at h
      · exact absurd h (by simp)
      · split at h
        · split at h
          · exact absurd h (by simp)
          · injection h with h2
            rw [← h2]
        · injection h with h2
          rw [← h2]
    · injection h with h2
      rw [← h2]

/-- C6 (amended): every connection not classified as terminate whose
handling completes without panicking receives exactly one written
response, namely the literal HTTP/1.1 200 response whose body is `true`,
whose `Content-Length` is 4 (the byte length of that body), and which
carries the CORS and cache-control headers, regardless of the request's
path, method, or body. -/
theorem claim_C6_fixed_response (c : Conn) (o : HOutcome)
    (hne : pathOf c ≠ strBytes "/exit") (h : handleConnection c = some o) :
    o.response = some fixedResponse ∧
    responseBody = "true" ∧ responseBody.length = 4 ∧
    fixedResponse =
      "HTTP/1.1 200 OK\r\nContent-Length: 4\r\nAccess-Control-Allow-Headers: *\r\nAccess-Control-Allow-Methods: POST, GET, OPTIONS\r\nAccess-Control-Allow-Credentials: true\r\nAccess-Control-Allow-Origin: *\r\nContent-Type: application/json; charset=utf-8\r\ncache-control: max-age=0, private, must-revalidate\r\n\r\ntrue" :=
  ⟨handleConnection_response c o hne h, rfl, rfl, rfl⟩

/-- Witness for C6 at a concrete request for an unrecognized path. -/
theorem claim_C6_witness :
    pathOf ⟨strBytes "GET /other HTTP/1.1\r\n\r\n", []⟩ ≠ strBytes "/exit" ∧
    ∃ o : HOutcome, handleConnection ⟨strBytes "GET /other HTTP/1.1\r\n\r\n", []⟩ = some o ∧
      o.response = some fixedResponse := by
  have hne : pathOf ⟨strBytes "GET /other HTTP/1.1\r\n\r\n", []⟩ ≠ strBytes "/exit" := by
    decide
  have h : handleConnection ⟨strBytes "GET /other HTTP/1.1\r\n\r\n", []⟩ =
      some ⟨none, some fixedResponse, none⟩ := by decide
  exact ⟨hne, _, h, (claim_C6_fixed_response _ _ hne h).1⟩

/-- Counterexample for C6 as stated: this `/submit` connection is not
classified as terminate, yet it receives no response at all — the
declared `Content-Length: 2` is smaller than the three body bytes already
read, so the thread panics before the write. -/
theorem claim_C6_counterexample :
    pathOf ⟨strBytes "POST /submit HTTP/1.1\r\nContent-Length: 2\r\n\r\nabc", []⟩ ≠
      strBytes "/exit" ∧
    handleConnection ⟨strBytes "POST /submit HTTP/1.1\r\nContent-Length: 2\r\n\r\nabc", []⟩ =
      none := by
  constructor
  · decide
  · decide

/-- C3 (amended): a POST to `/submit` declaring `Content-Length` N whose
full N body bytes arrive in the initial read and whose bytes are valid
UTF-8 yields a captured content byte-identical to the body bytes the
client sent; no extra read happens. -/
theorem claim_C3_full_body (c : Conn) (n : Nat) (head body : List Nat)
    (hlen : c.initial.length ≤ bufferSize)
    (hpath : pathOf c = strBytes "/submit")
    (hcl : clOf c = some n)
    (hsplit : splitOnBlank c.initial = some (head, body))
    (hn : body.length = n) (hpos : 0 < n)
    (hvalid : validUtf8 c.initial = true) :
    handleConnection c = some ⟨some body, some fixedResponse, none⟩ := by
  unfold handleConnection
  rw [if_neg (by rw [hpath]; decide), hcl]
  simp only []
  rw [if_pos ⟨hpos, hpath⟩]
  rw [buffer_take_initial c hlen, utf8Lossy_id _ hvalid]
  have hbc : bodyContentOf c.initial = body := by
    unfold bodyContentOf
    rw [hsplit]
  rw [hbc, hn]
  rw [if_neg (lt_irrefl n), Nat.sub_self, if_neg (lt_irrefl 0)]
  have hne : body.isEmpty = false := by
    cases body with
    | nil => rw [← hn] at hpos; simp at hpos
    | cons x xs => rfl
  rw [hne]
  simp

/-- Witness for C3 at a concrete POST carrying its whole 5-byte body in
the initial read. -/
theorem claim_C3_witness :
    handleConnection ⟨strBytes "POST /submit HTTP/1.1\r\nContent-Length: 5\r\n\r\nhello", []⟩ =
      some ⟨some (strBytes "hello"), some fixedResponse, none⟩ := by
  refine claim_C3_full_body _ 5
    (strBytes "POST /submit HTTP/1.1\r\nContent-Length: 5") (strBytes "hello")
    ?_ ?_ ?_ ?_ ?_ ?_ ?_
  · decide
  · decide
  · decide
  · decide
  · decide
  · decide
  · decide

/-- Counterexample for C3 as stated: the 3-byte body `F0 90 80` (a
truncated four-byte UTF-8 sequence) arrives fully in the initial read
with `Content-Length: 3`, but the lossy conversion replaces it by the
replacement character `EF BF BD`, so the captured content is not
byte-identical to the body the client sent. -/
theorem claim_C3_counterexample :
    handleConnection
        ⟨strBytes "POST /submit HTTP/1.1\r\nContent-Length: 3\r\n\r\n" ++ [240, 144, 128], []⟩ =
      some ⟨some [239, 191, 189], some fixedResponse, none⟩ ∧
    ([239, 191, 189] : List Nat) ≠ [240, 144, 128] := by
  constructor
  · decide
  · decide

/-- C2 (amended): a POST to `/submit` declaring `Content-Length` N whose
initial read delivers only a k-byte prefix of the body (k < N), provided
the initial read and the N-k remainder bytes are each valid UTF-8 (in
particular the split falls on a character boundary), performs exactly one
additional blocking read of precisely the N-k shortfall bytes, and the
captured content is the full N-byte concatenation, byte-identical to the
original body. -/
theorem claim_C2_split_body (c : Conn) (n k : Nat) (head pre : List Nat)
    (hlen : c.initial.length ≤ bufferSize)
    (hpath : pathOf c = strBytes "/submit")
    (hcl : clOf c = some n)
    (hsplit : splitOnBlank c.initial = some (head, pre))
    (hk : pre.length = k) (hkn : k < n)
    (hvalid : validUtf8 c.initial = true)
    (hpend : n - k ≤ c.pending.length)
    (hvalid2 : validUtf8 (c.pending.take (n - k)) = true) :
    handleConnection c =
      some ⟨some (pre ++ c.pending.take (n - k)), some fixedResponse, some (n - k)⟩ ∧
    (pre ++ c.pending.take (n - k)).length = n := by
  have hfull : (pre ++ c.pending.take (n - k)).length = n := by
    rw [List.length_append, List.length_take, hk]
    omega
  refine ⟨?_, hfull⟩
  unfold handleConnection
  rw [if_neg (by rw [hpath]; decide), hcl]
  simp only []
  rw [if_pos ⟨Nat.lt_of_le_of_lt (Nat.zero_le k) hkn, hpath⟩]
  rw [buffer_take_initial c hlen, utf8Lossy_id _ hvalid]
  have hbc : bodyContentOf c.initial = pre := by
    unfold bodyContentOf
    rw [hsplit]
  rw [hbc, hk]
  rw [if_neg (by omega : ¬ n < k), if_pos (by omega : 0 < n - k)]
  rw [if_neg (by omega : ¬ c.pending.length < n - k)]
  rw [utf8Lossy_id _ hvalid2]
  have hne : (pre ++ c.pending.take (n - k)).isEmpty = false := by
    cases hpp : pre ++ c.pending.take (n - k) with
    | nil => rw [hpp] at hfull; simp at hfull; omega
    | cons x xs => rfl
  rw [hne]
  simp

/-- Witness for C2 at a concrete POST whose 5-byte body arrives as the
3-byte prefix `hel` in the initial read plus the 2-byte remainder `lo`. -/
theorem claim_C2_witness :
    handleConnection
        ⟨strBytes "POST /submit HTTP/1.1\r\nContent-Length: 5\r\n\r\nhel", strBytes "lo"⟩ =
      some ⟨some (strBytes "hello"), some fixedResponse, some 2⟩ ∧
    (strBytes "hello").length = 5 := by
  have h := claim_C2_split_body
    ⟨strBytes "POST /submit HTTP/1.1\r\nContent-Length: 5\r\n\r\nhel", strBytes "lo"⟩ 5 3
    (strBytes "POST /submit HTTP/1.1\r\nContent-Length: 5") (strBytes "hel")
    (by decide) (by decide) (by decide) (by decide) (by decide) (by decide)
    (by decide) (by decide) (by decide)
  exact h

/-- Counterexample for C2 as stated: the body `C3 A9` (the letter é) split
after its first byte — `Content-Length: 2`, only `C3` in the initial read,
`A9` still pending — does not cause one additional read of 1 byte with
the body captured; instead the lossy conversion expands the dangling `C3`
to three bytes, the subtraction underflows, and the thread panics without
reading further, capturing nothing, or answering. -/
theorem claim_C2_counterexample :
    handleConnection
        ⟨strBytes "POST /submit HTTP/1.1\r\nContent-Length: 2\r\n\r\n" ++ [195], [169]⟩ =
      none := by
  decide

end OauthPlugin
